import Mathlib

/-!
# Payload descriptor of the vineyard shared-memory object store

A shallow embedding of `src/common/memory/payload.h`: the `Payload` record, its
six-argument constructor and its `operator==`, followed by the structured record
through which a descriptor is exchanged between processes (`ToJSON`, `FromJSON`).

Machine integers are mathematical integers here.  The constructor and the
comparison only copy and compare values, each argument having exactly the type of
the field it initialises, so no conversion or wrap-around takes place; the ranges
of the C++ types are kept as the separate predicates `isInt32`, `isInt64` and
`isUInt64`.
-/

namespace vineyard

set_option linter.dupNamespace false

/-- Modelled from the spec: `ObjectID` is declared in `common/util/uuid.h`, which
is not among the sources; the specification describes it as a 64-bit value
naming one object.  It is an unsigned number here. -/
abbrev ObjectID := Nat

/-- Values of a C++ `int`. -/
def isInt32 (x : Int) : Prop := -2147483648 ≤ x ∧ x ≤ 2147483647

/-- Values of `int64_t` and of `ptrdiff_t`. -/
def isInt64 (x : Int) : Prop := -9223372036854775808 ≤ x ∧ x ≤ 9223372036854775807

/-- Values of `uint64_t`, also the values of an address (`uint8_t*`). -/
def isUInt64 (n : Nat) : Prop := n ≤ 18446744073709551615

instance (x : Int) : Decidable (isInt32 x) := by unfold isInt32; infer_instance
instance (x : Int) : Decidable (isInt64 x) := by unfold isInt64; infer_instance
instance (n : Nat) : Decidable (isUInt64 n) := by unfold isUInt64; infer_instance

/-- The record `struct Payload`, fields in declaration order.  `pointer` is the
address held by the `uint8_t*`, zero standing for the null pointer. -/
structure Payload where
  object_id : ObjectID
  store_fd : Int
  data_offset : Int
  data_size : Int
  map_size : Int
  pointer : Nat
deriving DecidableEq

/-- Every field of the record holds a value of its C++ type. -/
def Payload.wellTyped (p : Payload) : Prop :=
  isUInt64 p.object_id ∧ isInt32 p.store_fd ∧ isInt64 p.data_offset ∧
    isInt64 p.data_size ∧ isInt64 p.map_size ∧ isUInt64 p.pointer

instance (p : Payload) : Decidable p.wellTyped := by
  unfold Payload.wellTyped; infer_instance

/-- The constructor `Payload(object_id, size, ptr, fd, msize, offset)`: the member
initialiser list, in the order in which it is written. -/
def Payload.Payload (object_id : ObjectID) (size : Int) (ptr : Nat) (fd : Int)
    (msize : Int) (offset : Int) : vineyard.Payload :=
  { object_id := object_id
    store_fd := fd
    data_offset := offset
    data_size := size
    map_size := msize
    pointer := ptr }

/-- The comparison `bool operator==(const Payload& other) const`. -/
def Payload.operatorEq (self other : vineyard.Payload) : Bool :=
  (self.object_id == other.object_id) && (self.store_fd == other.store_fd) &&
    (self.data_offset == other.data_offset) &&
    (self.data_size == other.data_size)

/-- Modelled from the spec: the error kinds of the specification's error
taxonomy; the header under `src/` declares none of them. -/
inductive ErrorKind where
  | NotFound
  | AlreadySealed
  | InvalidState
  | StillReferenced
  | DoubleRelease
  | ResourceExhausted
  | MapFailed
  | MalformedDescriptor
  | NotReady
deriving DecidableEq

/-- Modelled from the spec: the type `json` comes from `common/util/json.h`, which
is not among the sources.  The specification asks for a structured record whose
fields are named; the descriptor's fields are all numbers, so a record is a list
of named integers, the first entry of a name being the one that counts. -/
structure json where
  fields : List (String × Int)
deriving DecidableEq

/-- Value of the field `key` in a list of named values, if there is one. -/
def lookupField (key : String) : List (String × Int) → Option Int
  | [] => none
  | (k, w) :: rest => if k = key then some w else lookupField key rest

/-- Assign `v` to the field `key`: an existing entry is overwritten in place, a
new one is appended. -/
def assignField (key : String) (v : Int) : List (String × Int) → List (String × Int)
  | [] => [(key, v)]
  | (k, w) :: rest =>
    if k = key then (k, v) :: rest else (k, w) :: assignField key v rest

/-- Read access `tree[key]` on a record. -/
def json.get (tree : json) (key : String) : Option Int :=
  lookupField key tree.fields

/-- Write access `tree[key] = v` on a record. -/
def json.set (tree : json) (key : String) (v : Int) : json :=
  ⟨assignField key v tree.fields⟩

/-- Modelled from the spec: `void ToJSON(json& tree) const` is only declared in
`payload.h`; its body is not among the sources.  Following the exchange protocol
of the specification, the message carries object_id, the segment handle,
data_offset, data_size and map_size under their field names, and never the local
address.  The record passed by reference is returned with those five fields
assigned. -/
def Payload.ToJSON (self : vineyard.Payload) (tree : json) : json :=
  ((((tree.set "object_id" (Int.ofNat self.object_id)).set "segment_handle"
    self.store_fd).set "data_offset" self.data_offset).set "data_size"
    self.data_size).set "map_size" self.map_size

/-- Modelled from the spec: `void FromJSON(const json& tree)` is only declared in
`payload.h`; its body is not among the sources.  Following the serialization
contract of the specification, the five required fields are read by name, a
record lacking one of them is rejected with `MalformedDescriptor`, and fields
that are not known are ignored.  The record carries no address, so the `pointer`
of the receiving object is left as it was. -/
def Payload.FromJSON (self : vineyard.Payload) (tree : json) :
    Except ErrorKind vineyard.Payload :=
  match tree.get "object_id", tree.get "segment_handle", tree.get "data_offset",
      tree.get "data_size", tree.get "map_size" with
  | some oid, some fd, some off, some sz, some msz =>
    .ok { object_id := oid.toNat
          store_fd := fd
          data_offset := off
          data_size := sz
          map_size := msz
          pointer := self.pointer }
  | _, _, _, _, _ => .error ErrorKind.MalformedDescriptor

/-! ## Reading and writing fields of a record -/

theorem lookupField_assignField_same (key : String) (v : Int)
    (l : List (String × Int)) :
    lookupField key (assignField key v l) = some v := by
  induction l with
  | nil => simp [assignField, lookupField]
  | cons e rest ih =>
    obtain ⟨k, w⟩ := e
    by_cases h : k = key
    · simp [assignField, lookupField, h]
    · simp [assignField, lookupField, h, ih]

theorem lookupField_assignField_other (key other : String) (v : Int)
    (l : List (String × Int)) (hne : other ≠ key) :
    lookupField key (assignField other v l) = lookupField key l := by
  induction l with
  | nil => simp [assignField, lookupField, hne]
  | cons e rest ih =>
    obtain ⟨k, w⟩ := e
    by_cases h : k = other
    · subst h
      simp [assignField, lookupField, hne]
    · by_cases hk : k = key
      · subst hk
        simp [assignField, lookupField, h]
      · simp [assignField, lookupField, h, hk, ih]

theorem json_get_set_same (tree : json) (key : String) (v : Int) :
    (tree.set key v).get key = some v :=
  lookupField_assignField_same key v tree.fields

theorem json_get_set_other (tree : json) (key other : String) (v : Int)
    (hne : other ≠ key) : (tree.set other v).get key = tree.get key :=
  lookupField_assignField_other key other v tree.fields hne

/-- The five fields of the record written by `ToJSON`, read back by name. -/
theorem ToJSON_fields (p : Payload) (tree : json) :
    (p.ToJSON tree).get "object_id" = some (Int.ofNat p.object_id) ∧
    (p.ToJSON tree).get "segment_handle" = some p.store_fd ∧
    (p.ToJSON tree).get "data_offset" = some p.data_offset ∧
    (p.ToJSON tree).get "data_size" = some p.data_size ∧
    (p.ToJSON tree).get "map_size" = some p.map_size := by
  unfold Payload.ToJSON
  refine ⟨?_, ?_, ?_, ?_, ?_⟩
  · rw [json_get_set_other _ _ _ _ (by decide), json_get_set_other _ _ _ _ (by decide),
      json_get_set_other _ _ _ _ (by decide), json_get_set_other _ _ _ _ (by decide),
      json_get_set_same]
  · rw [json_get_set_other _ _ _ _ (by decide), json_get_set_other _ _ _ _ (by decide),
      json_get_set_other _ _ _ _ (by decide), json_get_set_same]
  · rw [json_get_set_other _ _ _ _ (by decide), json_get_set_other _ _ _ _ (by decide),
      json_get_set_same]
  · rw [json_get_set_other _ _ _ _ (by decide), json_get_set_same]
  · rw [json_get_set_same]

/-- Decoding the record written by `ToJSON` succeeds and restores every
transmitted field; the address is the receiver's own. -/
theorem FromJSON_ToJSON (p self : Payload) (tree : json) :
    self.FromJSON (p.ToJSON tree) = .ok { p with pointer := self.pointer } := by
  obtain ⟨h1, h2, h3, h4, h5⟩ := ToJSON_fields p tree
  unfold Payload.FromJSON
  rw [h1, h2, h3, h4, h5]
  simp

/-- The four comparisons of `operator==`, as equations between fields. -/
theorem operatorEq_fields (a b : Payload) :
    a.operatorEq b = true ↔
      a.object_id = b.object_id ∧ a.store_fd = b.store_fd ∧
        a.data_offset = b.data_offset ∧ a.data_size = b.data_size := by
  simp [Payload.operatorEq, and_assoc]

/-! ## Structural equality -/

/-- C1: for every two Payloads `a` and `b`, `a == b` returns true if and only if
they have the same `object_id`, the same `store_fd`, the same `data_offset` and
the same `data_size`. -/
theorem operatorEq_true_iff (a b : Payload) :
    a.operatorEq b = true ↔
      (a.object_id = b.object_id ∧ a.store_fd = b.store_fd ∧
        a.data_offset = b.data_offset ∧ a.data_size = b.data_size) := by
  unfold Payload.operatorEq
  simp only [Bool.and_eq_true, beq_iff_eq]
  tauto

/-- C2: replacing only the pointer of a Payload `p` by any address `q` gives a
Payload that compares equal to `p`, whichever of the two is the left operand. -/
theorem operatorEq_replace_pointer (p : Payload) (q : Nat) :
    ({ p with pointer := q } : Payload).operatorEq p = true ∧
      p.operatorEq { p with pointer := q } = true := by
  constructor <;> simp [Payload.operatorEq]

/-- C8: `operator==` is an equivalence relation on Payloads: it is reflexive,
symmetric and transitive. -/
theorem operatorEq_equivalence :
    (∀ a : Payload, a.operatorEq a = true) ∧
    (∀ a b : Payload, a.operatorEq b = true → b.operatorEq a = true) ∧
    (∀ a b c : Payload, a.operatorEq b = true → b.operatorEq c = true →
      a.operatorEq c = true) := by
  refine ⟨?_, ?_, ?_⟩
  · intro a
    exact (operatorEq_fields a a).mpr ⟨rfl, rfl, rfl, rfl⟩
  · intro a b hab
    obtain ⟨h1, h2, h3, h4⟩ := (operatorEq_fields a b).mp hab
    exact (operatorEq_fields b a).mpr ⟨h1.symm, h2.symm, h3.symm, h4.symm⟩
  · intro a b c hab hbc
    obtain ⟨h1, h2, h3, h4⟩ := (operatorEq_fields a b).mp hab
    obtain ⟨k1, k2, k3, k4⟩ := (operatorEq_fields b c).mp hbc
    exact (operatorEq_fields a c).mpr
      ⟨h1.trans k1, h2.trans k2, h3.trans k3, h4.trans k4⟩

/-- Symmetry and transitivity of `operator==` applied to three descriptors of the
object 7 that differ in `map_size` and in `pointer`. -/
theorem operatorEq_equivalence_witness :
    (Payload.Payload 7 16 4096 3 64 8).operatorEq (Payload.Payload 7 16 0 3 32 8) = true ∧
    (Payload.Payload 7 16 0 3 32 8).operatorEq (Payload.Payload 7 16 4096 3 64 8) = true ∧
    (Payload.Payload 7 16 4096 3 64 8).operatorEq (Payload.Payload 7 16 512 3 24 8) = true :=
  ⟨by decide,
   operatorEq_equivalence.2.1 (Payload.Payload 7 16 4096 3 64 8)
     (Payload.Payload 7 16 0 3 32 8) (by decide),
   operatorEq_equivalence.2.2 (Payload.Payload 7 16 4096 3 64 8)
     (Payload.Payload 7 16 0 3 32 8) (Payload.Payload 7 16 512 3 24 8)
     (by decide) (by decide)⟩

/-- C9: `operator==` ignores `map_size` and so does not preserve the bounds
invariant: there are Payloads `p` and `q`, `q` being `p` with only `map_size`
replaced by a smaller value, such that `p == q`, `p` satisfies
`data_offset + data_size <= map_size` and `q` does not. -/
theorem operatorEq_ignores_map_size :
    ∃ (p q : Payload) (m : Int),
      q = { p with map_size := m } ∧ m < p.map_size ∧
      p.wellTyped ∧ q.wellTyped ∧
      p.operatorEq q = true ∧
      p.data_offset + p.data_size ≤ p.map_size ∧
      ¬ (q.data_offset + q.data_size ≤ q.map_size) :=
  ⟨Payload.Payload 7 16 4096 3 64 8, Payload.Payload 7 16 4096 3 20 8, 20,
    by decide, by decide, by decide, by decide, by decide, by decide, by decide⟩

/-! ## The constructor -/

/-- C7: the Payload built by `Payload(object_id, size, ptr, fd, msize, offset)`
has `object_id = object_id`, `data_size = size`, `pointer = ptr`, `store_fd = fd`,
`map_size = msize` and `data_offset = offset`: each positional argument lands in
the field it names. -/
theorem Payload_ctor_fields (object_id : ObjectID) (size : Int) (ptr : Nat)
    (fd : Int) (msize : Int) (offset : Int) :
    (Payload.Payload object_id size ptr fd msize offset).object_id = object_id ∧
    (Payload.Payload object_id size ptr fd msize offset).data_size = size ∧
    (Payload.Payload object_id size ptr fd msize offset).pointer = ptr ∧
    (Payload.Payload object_id size ptr fd msize offset).store_fd = fd ∧
    (Payload.Payload object_id size ptr fd msize offset).map_size = msize ∧
    (Payload.Payload object_id size ptr fd msize offset).data_offset = offset :=
  ⟨rfl, rfl, rfl, rfl, rfl, rfl⟩

/-- C3, as stated, fails: `Payload(7, 10, 0, 3, 5, 0)`, whose arguments are all
values of their C++ types, is built with `data_offset + data_size = 10` and
`map_size = 5`. -/
theorem Payload_ctor_bounds_counterexample :
    (Payload.Payload 7 10 0 3 5 0).wellTyped ∧
    ¬ ((Payload.Payload 7 10 0 3 5 0).data_offset +
        (Payload.Payload 7 10 0 3 5 0).data_size ≤
          (Payload.Payload 7 10 0 3 5 0).map_size) := by
  decide

/-- C3, amended: the constructor checks nothing, so a Payload it creates satisfies
`data_offset + data_size <= map_size` whenever the arguments satisfy
`offset + size <= msize`. -/
theorem Payload_ctor_bounds (object_id : ObjectID) (size : Int) (ptr : Nat)
    (fd : Int) (msize : Int) (offset : Int) (h : offset + size ≤ msize) :
    (Payload.Payload object_id size ptr fd msize offset).data_offset +
      (Payload.Payload object_id size ptr fd msize offset).data_size ≤
        (Payload.Payload object_id size ptr fd msize offset).map_size := by
  simpa [Payload.Payload] using h

/-- The amended C3 at `Payload(7, 16, 4096, 3, 64, 8)`. -/
theorem Payload_ctor_bounds_witness :
    (8 : Int) + 16 ≤ 64 ∧
    (Payload.Payload 7 16 4096 3 64 8).data_offset +
      (Payload.Payload 7 16 4096 3 64 8).data_size ≤
        (Payload.Payload 7 16 4096 3 64 8).map_size :=
  ⟨by decide, Payload_ctor_bounds 7 16 4096 3 64 8 (by decide)⟩

/-- C5, as stated, fails: `Payload(7, -1, 0, 3, 0, -1)`, whose arguments are all
values of their C++ types (`int64_t` and `ptrdiff_t` are signed), is built with
a negative `data_offset` and a negative `data_size`. -/
theorem Payload_ctor_nonneg_counterexample :
    (Payload.Payload 7 (-1) 0 3 0 (-1)).wellTyped ∧
    ¬ (0 ≤ (Payload.Payload 7 (-1) 0 3 0 (-1)).data_offset ∧
        0 ≤ (Payload.Payload 7 (-1) 0 3 0 (-1)).data_size) := by
  decide

/-- C5, amended: the constructor checks nothing, so a Payload it creates has
`data_offset >= 0` and `data_size >= 0` whenever the arguments satisfy
`offset >= 0` and `size >= 0`. -/
theorem Payload_ctor_nonneg (object_id : ObjectID) (size : Int) (ptr : Nat)
    (fd : Int) (msize : Int) (offset : Int) (hoff : 0 ≤ offset) (hsize : 0 ≤ size) :
    0 ≤ (Payload.Payload object_id size ptr fd msize offset).data_offset ∧
      0 ≤ (Payload.Payload object_id size ptr fd msize offset).data_size := by
  exact ⟨by simpa [Payload.Payload] using hoff, by simpa [Payload.Payload] using hsize⟩

/-- The amended C5 at `Payload(7, 16, 4096, 3, 64, 8)`. -/
theorem Payload_ctor_nonneg_witness :
    (0 : Int) ≤ 8 ∧ (0 : Int) ≤ 16 ∧
    0 ≤ (Payload.Payload 7 16 4096 3 64 8).data_offset ∧
    0 ≤ (Payload.Payload 7 16 4096 3 64 8).data_size :=
  ⟨by decide, by decide, Payload_ctor_nonneg 7 16 4096 3 64 8 (by decide) (by decide)⟩

/-! ## The exchanged record -/

/-- C4: for every Payload `p`, decoding with `FromJSON` (into any receiving
object `self`) the record that `ToJSON` wrote for `p` (into any record `tree`)
succeeds, and the Payload obtained compares equal to `p`. -/
theorem FromJSON_ToJSON_operatorEq (p self : Payload) (tree : json) :
    ∃ q : Payload, self.FromJSON (p.ToJSON tree) = .ok q ∧ q.operatorEq p = true := by
  refine ⟨{ p with pointer := self.pointer }, FromJSON_ToJSON p self tree, ?_⟩
  simp [Payload.operatorEq]

/-- C6: the record written by `ToJSON` does not depend on the local address: two
Payloads `p` and `q` that agree on every field other than `pointer` write the same
record. -/
theorem ToJSON_pointer_independent (p q : Payload) (tree : json)
    (hid : p.object_id = q.object_id) (hfd : p.store_fd = q.store_fd)
    (hoff : p.data_offset = q.data_offset) (hsize : p.data_size = q.data_size)
    (hmap : p.map_size = q.map_size) :
    p.ToJSON tree = q.ToJSON tree := by
  unfold Payload.ToJSON
  rw [hid, hfd, hoff, hsize, hmap]

/-- C6 at two descriptors of the object 7, one mapped at address 4096 and the
other at address 512, written into a record that already holds a field. -/
theorem ToJSON_pointer_independent_witness :
    (Payload.Payload 7 16 4096 3 64 8).pointer ≠ (Payload.Payload 7 16 512 3 64 8).pointer ∧
    (Payload.Payload 7 16 4096 3 64 8).ToJSON ⟨[("data_size", 1)]⟩ =
      (Payload.Payload 7 16 512 3 64 8).ToJSON ⟨[("data_size", 1)]⟩ :=
  ⟨by decide,
   ToJSON_pointer_independent (Payload.Payload 7 16 4096 3 64 8)
     (Payload.Payload 7 16 512 3 64 8) ⟨[("data_size", 1)]⟩ rfl rfl rfl rfl rfl⟩

end vineyard
